import Mathlib

/-!
Shallow embedding of the SecureShield AI threat-scoring and response-orchestration
engine (Python sources under src/): the threat detector
(src/src/threat_detector/lambda_function.py), the intelligence collector
(src/src/intel_collector/lambda_function.py) and the incident-response
orchestrator (src/src/incident_response/lambda_function.py), together with
theorems settling the frozen specification claims.

Modelling conventions:
* Python dict values that may be absent or None are modelled as Option.
* Python numeric scores are modelled exactly: integer accumulation as Nat,
  the float average in the aggregator as Rat (division by 2 of integral
  values is exact in both models).
* Python exceptions raised by a function are modelled by Except String;
  functions that cannot raise are total.
* Python sets are modelled as duplicate-free lists in insertion order
  (CPython iteration order of small string sets is not guaranteed; no claim
  below depends on the order, only on the underlying element sets).
-/

/-- Containment of one character list as a contiguous segment of another,
mirroring the Python substring operator used as x in y on strings. -/
def listSubstr (needle : List Char) : List Char → Bool
  | [] => needle.isEmpty
  | c :: rest => needle.isPrefixOf (c :: rest) || listSubstr needle rest

/-- Python substring test a in b on strings. -/
def pyIn (needle hay : String) : Bool :=
  listSubstr needle.data hay.data

/-- Python truthiness of an optional string: None and the empty string are
falsy, every other string is truthy. -/
def pyTruthy : Option String → Bool
  | none => false
  | some s => !(s = "")

/-- ASCII lowercase of one character. Python str.lower performs full Unicode
case mapping; every string this verification lowercases (the fixed tool
catalog and concrete user agents) is ASCII, where the two agree. -/
def lowerChar (c : Char) : Char :=
  if 65 ≤ c.toNat ∧ c.toNat ≤ 90 then Char.ofNat (c.toNat + 32) else c

/-- Python str.lower on ASCII strings, structurally recursive so that the
kernel can evaluate it on concrete inputs. -/
def pyLower (s : String) : String :=
  ⟨s.data.map lowerChar⟩

/-- Fixed catalog of reconnaissance/sensitive API call names, from
ThreatDetector._load_suspicious_patterns (threat_detector lambda_function.py,
key api_calls). -/
def apiCallsCatalog : List String :=
  ["DescribeInstances", "DescribeSecurityGroups", "DescribeVpcs",
   "ListBuckets", "GetBucketPolicy", "DescribeDBInstances",
   "GetUser", "ListUsers", "GetRole", "ListRoles"]

/-- Fixed catalog of offensive-tool user-agent signatures, from
ThreatDetector._load_suspicious_patterns (key user_agents). -/
def userAgentsCatalog : List String :=
  ["nmap", "sqlmap", "nikto", "dirb", "gobuster", "hydra",
   "metasploit", "burp", "zap", "w3af"]

/-- The detail object of an inbound EventBridge/CloudTrail event. String-valued
keys that the code reads with dict.get are Option String; the object-valued
keys (userIdentity, requestParameters, responseElements) are carried as
association lists since no analysed code path reads inside them. -/
structure EventDetailObj where
  eventID : Option String := none
  eventName : Option String := none
  eventTime : Option String := none
  userIdentity : List (String × String) := []
  sourceIPAddress : Option String := none
  userAgent : Option String := none
  requestParameters : List (String × String) := []
  responseElements : List (String × String) := []
  errorCode : Option String := none
  errorMessage : Option String := none
  awsRegion : Option String := none
  eventSource : Option String := none
  eventType : Option String := none
  resources : List String := []
  deriving Repr, DecidableEq

/-- An inbound event as passed to lambda_handler: a top-level id and an
optional detail object (event.get with default of an empty dict). -/
structure CloudEvent where
  id : Option String := none
  detail : Option EventDetailObj := none
  deriving Repr, DecidableEq

/-- The dict returned by ThreatDetector._extract_event_details. Every key is
always present; the values are whatever dict.get produced (None when the
inbound detail lacked the key). -/
structure ExtractedDetails where
  event_id : Option String
  event_name : Option String
  event_time : Option String
  user_identity : List (String × String)
  source_ip : Option String
  user_agent : Option String
  request_parameters : List (String × String)
  response_elements : List (String × String)
  error_code : Option String
  error_message : Option String
  aws_region : Option String
  event_source : Option String
  event_type : Option String
  deriving Repr, DecidableEq

/-- Embedding of ThreatDetector._extract_event_details: reads
event.get(detail, emptyDict) and copies each key with dict.get, so absent
keys become None and absent dict-valued keys default to the empty dict. -/
def extractEventDetails (event : CloudEvent) : ExtractedDetails :=
  let detail := event.detail.getD {}
  { event_id := detail.eventID
    event_name := detail.eventName
    event_time := detail.eventTime
    user_identity := detail.userIdentity
    source_ip := detail.sourceIPAddress
    user_agent := detail.userAgent
    request_parameters := detail.requestParameters
    response_elements := detail.responseElements
    error_code := detail.errorCode
    error_message := detail.errorMessage
    aws_region := detail.awsRegion
    event_source := detail.eventSource
    event_type := detail.eventType }

/-- Hour field of datetime.fromisoformat applied to an ISO-8601 timestamp
string: the two digits at character positions 11 and 12. Malformed strings
(anything without two digits there) raise, modelled as Except.error; this
under-approximates the set of strings CPython rejects, but agrees with
fromisoformat on every well-formed timestamp and no claim below depends on
a malformed timestamp. The replace of Z by +00:00 performed by the source
does not affect positions 11 and 12. -/
def isoHour (s : String) : Except String Nat :=
  match s.data.drop 11 with
  | c1 :: c2 :: _ =>
      if c1.isDigit && c2.isDigit then
        .ok ((c1.toNat - 48) * 10 + (c2.toNat - 48))
      else
        .error "ValueError: invalid isoformat string"
  | _ => .error "ValueError: invalid isoformat string"

/-- The dict returned by ThreatDetector._pattern_analysis. -/
structure PatternAnalysis where
  patterns_found : List String
  risk_score : Nat
  confidence : Nat
  deriving Repr, DecidableEq

/-- First rule of _pattern_analysis: the event name is in the fixed catalog of
reconnaissance/sensitive API calls (a stored None is not in the catalog). -/
def nameHitB (ed : ExtractedDetails) : Bool :=
  match ed.event_name with
  | some n => n ∈ apiCallsCatalog
  | none => false

/-- Catalog signatures matching a user agent: the tools whose signature is a
substring of the lowercased agent string, in catalog order. -/
def uaMatches (ua : String) : List String :=
  userAgentsCatalog.filter (fun t => pyIn t (pyLower ua))

/-- Claim-side reading of the user-agent rule (claim C2): catalog signatures
that are case-insensitive substrings of the user agent, lowercasing both
sides. Related to uaMatches (which lowercases only the agent, as the source
does) through the catalog being already lowercase. -/
def distinctToolMatches (ed : ExtractedDetails) : List String :=
  userAgentsCatalog.filter
    (fun t => pyIn (pyLower t) (pyLower (ed.user_agent.getD "")))

/-- Fourth rule of _pattern_analysis as a predicate of the extracted details:
a truthy timestamp whose parsed hour is outside 6..22. A timestamp that the
parser rejects makes _pattern_analysis raise instead; this predicate is only
related to the source inside patternAnalysis_ok below, whose hypothesis rules
that case out. -/
def offHoursRule (ed : ExtractedDetails) : Bool :=
  match ed.event_time with
  | none => false
  | some t =>
    if t = "" then false
    else
      match isoHour t with
      | .ok h => h < 6 || 22 < h
      | .error _ => false

/-- Embedding of ThreatDetector._pattern_analysis. The four rule blocks run in
source order, each appending its tags and adding its score increment. A
user_agent value of None raises AttributeError at the lower() call (the
source reads event_details.get(user_agent, emptyString), but the key is
always present in the dict built by _extract_event_details, so the default
never applies and a stored None reaches lower()). A present, non-empty
event_time that fails ISO parsing raises ValueError. -/
def patternAnalysis (ed : ExtractedDetails) : Except String PatternAnalysis :=
  let s1 : List String × Nat :=
    if nameHitB ed then
      (["suspicious_api_call:" ++ ed.event_name.getD ""], 2)
    else
      ([], 0)
  match ed.user_agent with
  | none => .error "AttributeError: NoneType object has no attribute lower"
  | some ua =>
    let ual := pyLower ua
    let s2 : List String × Nat :=
      userAgentsCatalog.foldl
        (fun acc t =>
          if pyIn t ual then
            (acc.1 ++ ["suspicious_user_agent:" ++ t], acc.2 + 5)
          else
            acc)
        s1
    let s3 : List String × Nat :=
      if pyTruthy ed.error_code then
        (s2.1 ++ ["api_error:" ++ ed.error_code.getD ""], s2.2 + 1)
      else
        s2
    let hourStep : Except String Bool :=
      if pyTruthy ed.event_time then
        (isoHour (ed.event_time.getD "")).map (fun h => h < 6 || 22 < h)
      else
        .ok false
    hourStep.map (fun offHours =>
      let s4 : List String × Nat :=
        if offHours then (s3.1 ++ ["off_hours_activity"], s3.2 + 1) else s3
      { patterns_found := s4.1
        risk_score := s4.2
        confidence := min (s4.2 * 10) 100 })

/-- The dict produced by ThreatDetector._ai_analysis: either the JSON object
parsed out of the external model response (whose keys may individually be
absent, hence Option fields; a JSON number may be fractional, hence Rat for
the risk score) or the failure dict built in the except branch. The failure
dict carries no risk_score key; the aggregator reads every key through
dict.get with a default. -/
structure AiAnalysis where
  threat_categories : Option (List String)
  confidence : Option Int
  reasoning : Option String
  risk_score : Option ℚ
  deriving Repr, DecidableEq

/-- The dict returned by the except branch of ThreatDetector._ai_analysis for
a failure with message msg: empty category list, confidence 0, reasoning
prefixed with the failure reason, and no risk_score key. -/
def aiFailureResult (msg : String) : AiAnalysis :=
  { threat_categories := some []
    confidence := some 0
    reasoning := some ("AI analysis failed: " ++ msg)
    risk_score := none }

/-- Embedding of ThreatDetector._ai_analysis. The Bedrock invocation plus the
two json.loads calls are the external classifier collaborator; their outcome
is the argument: a parsed response object, or an error message for any
transport, timeout or parse failure. The try/except returns the parsed
object on success and the failure dict otherwise — it never raises. -/
def aiAnalysis (callOutcome : Except String AiAnalysis) : AiAnalysis :=
  match callOutcome with
  | .ok parsed => parsed
  | .error msg => aiFailureResult msg

/-- The dict returned by ThreatDetector._assess_threat_level. The timestamp
key (wall-clock datetime.now) is omitted: no claim concerns it. Categories
are a Finset because the source builds a Python set and list(set) has no
guaranteed order. -/
structure ThreatAssessment where
  threat_level : String
  risk_score : ℚ
  confidence : Int
  categories : Finset String
  patterns_found : List String
  ai_reasoning : String
  deriving DecidableEq

/-- Category-tagging loop of _assess_threat_level: for each pattern tag, a tag
containing brute_force adds the brute_force category, otherwise a tag
containing reconnaissance adds the reconnaissance category. -/
def addPatternCategories (patterns : List String) (base : Finset String) : Finset String :=
  patterns.foldl
    (fun acc p =>
      if pyIn "brute_force" p then insert "brute_force" acc
      else if pyIn "reconnaissance" p then insert "reconnaissance" acc
      else acc)
    base

/-- Embedding of ThreatDetector._assess_threat_level: average the two risk
scores with float division, walk the threshold chain top-down, union the
categories, take the maximum confidence. -/
def assessThreatLevel (pa : PatternAnalysis) (ai : AiAnalysis) : ThreatAssessment :=
  let pattern_score : ℚ := (pa.risk_score : ℚ)
  let ai_score : ℚ := ai.risk_score.getD 0
  let combined_score : ℚ := (pattern_score + ai_score) / 2
  let threat_level : String :=
    if combined_score ≥ 8 then "CRITICAL"
    else if combined_score ≥ 6 then "HIGH"
    else if combined_score ≥ 4 then "MEDIUM"
    else if combined_score ≥ 2 then "LOW"
    else "INFO"
  let base : Finset String :=
    match ai.threat_categories with
    | some cs => cs.toFinset
    | none => ∅
  let all_categories := addPatternCategories pa.patterns_found base
  { threat_level := threat_level
    risk_score := combined_score
    confidence := max (pa.confidence : Int) (ai.confidence.getD 0)
    categories := all_categories
    patterns_found := pa.patterns_found
    ai_reasoning := ai.reasoning.getD "" }

/-- Embedding of ThreatDetector.analyze_event restricted to its data path:
extract details, run pattern analysis, run the classifier adapter, aggregate.
An exception from pattern analysis propagates (the method re-raises). -/
def analyzeEvent (event : CloudEvent) (callOutcome : Except String AiAnalysis) :
    Except String ThreatAssessment :=
  let ed := extractEventDetails event
  (patternAnalysis ed).map (fun pa => assessThreatLevel pa (aiAnalysis callOutcome))

/-- Specification-side rendering of the §4.4 threshold table: rows ordered
high-to-low, evaluated top-down, first matching row wins, INFO otherwise.
Compared against the if-chain in assessThreatLevel by theorem c1 below. -/
def specThresholdRows : List (ℚ × String) :=
  [(8, "CRITICAL"), (6, "HIGH"), (4, "MEDIUM"), (2, "LOW")]

/-- Level assigned by the specification threshold table to a combined score. -/
def specTableLevel (score : ℚ) : String :=
  match specThresholdRows.find? (fun row => score ≥ row.1) with
  | some row => row.2
  | none => "INFO"

/-- Condition under which lambda_handler (threat_detector) calls
store_threat_intelligence. -/
def storeIntelCondition (level : String) : Bool :=
  level ∈ ["MEDIUM", "HIGH", "CRITICAL"]

/-- Condition under which lambda_handler (threat_detector) calls
trigger_incident_response. -/
def incidentResponseCondition (level : String) : Bool :=
  level ∈ ["HIGH", "CRITICAL"]

/-- Condition under which IntelligenceCollector.collect_intelligence calls
_trigger_deep_analysis. -/
def deepAnalysisCondition (level : String) : Bool :=
  level ∈ ["HIGH", "CRITICAL"]

/-- Action requests dispatched by lambda_handler (threat_detector) for an
assessment of the given level, in source order: conditional intelligence
persistence, conditional incident-response trigger, unconditional metrics. -/
def lambdaHandlerDispatch (level : String) : List String :=
  (if storeIntelCondition level then ["store_threat_intelligence"] else []) ++
  (if incidentResponseCondition level then ["trigger_incident_response"] else []) ++
  ["send_metrics"]

/-- Embedding of IncidentResponseOrchestrator.execute_response actions_taken:
WAF block and security-group deny for HIGH/CRITICAL when a source address is
truthy, and an unconditional alert. -/
def executeResponseActions (threat_level : String) (source_ip : Option String) : List String :=
  (if threat_level ∈ ["HIGH", "CRITICAL"] then
    (if pyTruthy source_ip then ["waf_ip_block"] else []) ++
    (if pyTruthy source_ip then ["security_group_deny"] else [])
  else []) ++ ["alert_sent"]

/-- Item written by store_threat_intelligence (threat_detector). The wall
clock enters twice: now is int(time.time()) used for the TTL, and
assessmentTimestamp is the ISO string the assessment carried. -/
structure ThreatIntelItem where
  event_id : Option String
  timestamp : String
  threat_level : String
  risk_score : ℚ
  categories : Finset String
  source_ip : Option String
  event_name : Option String
  patterns_found : List String
  ai_reasoning : String
  ttl : Nat
  deriving DecidableEq

/-- Embedding of store_threat_intelligence (threat_detector): the constructed
DynamoDB item, including its 30-day TTL. -/
def storeThreatIntelligenceItem (now : Nat) (event : CloudEvent)
    (ta : ThreatAssessment) (assessmentTimestamp : String) : ThreatIntelItem :=
  { event_id := event.id
    timestamp := assessmentTimestamp
    threat_level := ta.threat_level
    risk_score := ta.risk_score
    categories := ta.categories
    source_ip := (event.detail.getD {}).sourceIPAddress
    event_name := (event.detail.getD {}).eventName
    patterns_found := ta.patterns_found
    ai_reasoning := ta.ai_reasoning
    ttl := now + 30 * 24 * 60 * 60 }

/-- Item written by IntelligenceCollector._store_intelligence. The nested
attack_patterns and event_details payload dicts are copied verbatim from the
arguments and are not re-modelled here; no claim reads them. now is
int(datetime.now().timestamp()) and nowIso the ISO timestamp string. -/
structure IntelligenceRecord where
  intelligence_id : String
  event_id : Option String
  timestamp : String
  source_ip : Option String
  threat_level : Option String
  risk_score : Option ℚ
  threat_categories : List String
  ttl : Nat
  deriving DecidableEq

/-- Embedding of IntelligenceCollector._store_intelligence: the constructed
DynamoDB item, including its 90-day TTL and generated intelligence id. -/
def storeIntelligenceRecord (now : Nat) (nowIso : String) (event_id : Option String)
    (source_ip : Option String) (threat_level : Option String)
    (risk_score : Option ℚ) (categories : Option (List String)) : IntelligenceRecord :=
  { intelligence_id := "intel_" ++ event_id.getD "unknown" ++ "_" ++ toString now
    event_id := event_id
    timestamp := nowIso
    source_ip := source_ip
    threat_level := threat_level
    risk_score := risk_score
    threat_categories := categories.getD []
    ttl := now + 90 * 24 * 60 * 60 }

/-- A Python value that is either a set of strings or a list of strings, the
two runtime types the attacker-profile set fields take in the intel
collector: fresh profiles hold set(), while profiles read back from DynamoDB
hold the list that put_item stored (the source converts set to list before
writing and never converts back after reading). -/
inductive PyColl where
  | pyset (elems : List String)
  | pylist (elems : List String)
  deriving Repr, DecidableEq

/-- Python set.add of one element, on the duplicate-free list model. -/
def pySetInsert (l : List String) (x : String) : List String :=
  if x ∈ l then l else l ++ [x]

/-- Python set.update with an iterable of strings. -/
def pySetUnion (l xs : List String) : List String :=
  xs.foldl pySetInsert l

/-- Attribute lookup coll.update(xs): succeeds on a set, raises
AttributeError on a list. -/
def pyCollUpdate : PyColl → List String → Except String PyColl
  | .pyset l, xs => .ok (.pyset (pySetUnion l xs))
  | .pylist _, _ => .error "AttributeError: list object has no attribute update"

/-- Python list(coll). -/
def pyCollToList : PyColl → List String
  | .pyset l => l
  | .pylist l => l

/-- Attacker profile dict as built and stored by
IntelligenceCollector._update_attacker_profile. -/
structure AttackerProfile where
  source_ip : String
  first_seen : Option String
  attack_count : Nat
  attack_vectors : PyColl
  tools_used : PyColl
  threat_levels : List String
  last_activity : Option String
  deriving Repr, DecidableEq

/-- The attacker-profiles DynamoDB table, keyed by source address. -/
def ProfilesTable : Type := List (String × AttackerProfile)

/-- DynamoDB get_item on the profiles table. -/
def tableGet (t : ProfilesTable) (k : String) : Option AttackerProfile :=
  match t.find? (fun e => e.1 = k) with
  | some e => some e.2
  | none => none

/-- DynamoDB put_item on the profiles table (replaces any existing item). -/
def tablePut (t : ProfilesTable) (k : String) (v : AttackerProfile) : ProfilesTable :=
  (k, v) :: (t : List (String × AttackerProfile)).filter (fun e => !(e.1 = k))

/-- Embedding of IntelligenceCollector._update_attacker_profile. The inputs
are the two fields the source reads from event_details (source_ip,
event_time) and the two lists it reads from attack_patterns (attack_vectors,
tools_used). Returns the table after the call and the returned profile dict
(none stands for the empty dict returned when source_ip is falsy or when the
try body raises; on a raise, nothing has been written). -/
def updateAttackerProfile (source_ip event_time : Option String)
    (attack_vectors tools_used : List String) (table : ProfilesTable) :
    ProfilesTable × Option AttackerProfile :=
  if !(pyTruthy source_ip) then (table, none)
  else
    let ip := source_ip.getD ""
    let profile : AttackerProfile :=
      (tableGet table ip).getD
        { source_ip := ip
          first_seen := event_time
          attack_count := 0
          attack_vectors := .pyset []
          tools_used := .pyset []
          threat_levels := []
          last_activity := event_time }
    let count := profile.attack_count + 1
    match pyCollUpdate profile.attack_vectors attack_vectors with
    | .error _ => (table, none)
    | .ok av =>
      match pyCollUpdate profile.tools_used tools_used with
      | .error _ => (table, none)
      | .ok tu =>
        let updated : AttackerProfile :=
          { profile with
            attack_count := count
            attack_vectors := .pylist (pyCollToList av)
            tools_used := .pylist (pyCollToList tu)
            last_activity := event_time }
        (tablePut table ip updated, some updated)

/-- The high-threat scenario event of the specification (§8) and of
tests/test_threat_detector.py (test_lambda_handler_high_threat): GetUser from
sqlmap with an AccessDenied error at 10:30 UTC. -/
def scenarioEvent : CloudEvent :=
  { id := some "test-event-id"
    detail := some
      { eventID := some "test-event-id"
        eventName := some "GetUser"
        eventTime := some "2024-01-15T10:30:00Z"
        sourceIPAddress := some "203.0.113.25"
        userAgent := some "sqlmap/1.6.12"
        errorCode := some "AccessDenied"
        awsRegion := some "us-east-1" } }

/-- Extracted details of the scenario event. -/
def scenarioDetails : ExtractedDetails := extractEventDetails scenarioEvent

/-- Pattern analysis produced by the source for the scenario event: the
GetUser catalog hit, the sqlmap agent hit and the error tag. -/
def scenarioPA : PatternAnalysis :=
  { patterns_found := ["suspicious_api_call:GetUser",
                       "suspicious_user_agent:sqlmap",
                       "api_error:AccessDenied"]
    risk_score := 8
    confidence := 80 }

/-- Event with anchor fields (name, timestamp) present but no userAgent key. -/
def c5Event : CloudEvent :=
  { id := some "evt-missing-user-agent"
    detail := some { eventName := some "GetUser"
                     eventTime := some "2024-01-15T10:30:00Z" } }

/-- Event missing name, timestamp, error and address, with only a user agent. -/
def c5WitnessEvent : CloudEvent :=
  { id := none
    detail := some { userAgent := some "aws-cli/2.0.0" } }

/-- First profile upsert for the scenario attacker against an empty table. -/
def upsert1 : ProfilesTable × Option AttackerProfile :=
  updateAttackerProfile (some "203.0.113.25") (some "2024-01-15T10:30:00Z")
    ["data_access"] ["sqlmap"] ([] : ProfilesTable)

/-- Second upsert for the same attacker against the table the first one
wrote, now carrying a new tool observation. -/
def upsert2 : ProfilesTable × Option AttackerProfile :=
  updateAttackerProfile (some "203.0.113.25") (some "2024-01-15T11:00:00Z")
    ["data_access"] ["nmap"] upsert1.1

/-- Assessment of the scenario event under a failed semantic classifier. -/
def c9Assessment : ThreatAssessment :=
  assessThreatLevel scenarioPA (aiFailureResult "timeout")

/-! Helper lemmas shared by the claim theorems. -/

/-- Appending both strings appends the underlying character lists. -/
theorem strDataAppend (a b : String) : (a ++ b).data = a.data ++ b.data := by
  cases a; cases b; rfl

/-- When a needle is at least as long as the left block it starts over, that
block is an initial segment of the needle. -/
theorem prefixOf_absorb_left (t : List Char) :
    ∀ s x : List Char, t.isPrefixOf (s ++ x) = true → s.length ≤ t.length →
      s.isPrefixOf t = true := by
  induction t with
  | nil =>
    intro s x h hlen
    cases s with
    | nil => rfl
    | cons c s2 => simp at hlen
  | cons d t2 ih =>
    intro s x h hlen
    cases s with
    | nil => rfl
    | cons c s2 =>
      simp only [List.cons_append, List.isPrefixOf] at h ⊢
      simp only [List.length_cons] at hlen
      rcases Bool.and_eq_true_iff.mp h with ⟨hdc, hrest⟩
      refine Bool.and_eq_true_iff.mpr ⟨?_, ih s2 x hrest (by omega)⟩
      have : d = c := by simpa using hdc
      simp [this]

/-- Occurrence of a needle in an appended list: either it lies in the right
block, or it begins inside the left block, so some non-empty suffix of the
left block is where it starts. -/
theorem listSubstr_append_cases (t : List Char) :
    ∀ a b : List Char, listSubstr t (a ++ b) = true →
      listSubstr t b = true ∨
      ∃ r s, a = r ++ s ∧ s ≠ [] ∧ t.isPrefixOf (s ++ b) = true := by
  intro a
  induction a with
  | nil => intro b h; exact Or.inl h
  | cons c a2 ih =>
    intro b h
    rw [List.cons_append, listSubstr] at h
    rcases Bool.or_eq_true_iff.mp h with hpre | hrest
    · exact Or.inr ⟨[], c :: a2, rfl, by simp, by rwa [List.cons_append]⟩
    · rcases ih b hrest with hin | ⟨r, s, ha, hne, hp⟩
      · exact Or.inl hin
      · exact Or.inr ⟨c :: r, s, by rw [ha, List.cons_append], hne, hp⟩

/-- A needle longer than the api_error: tag header and matching no tail of
that header can occur in the tag only through the error-code payload. -/
theorem substr_through_api_error (needle code : String)
    (h10 : 10 < needle.data.length)
    (hpre : ∀ n, n < 10 → (("api_error:".data).drop n).isPrefixOf needle.data = false) :
    pyIn needle ("api_error:" ++ code) = true → pyIn needle code = true := by
  intro h
  unfold pyIn at h ⊢
  rw [strDataAppend] at h
  rcases listSubstr_append_cases needle.data ("api_error:".data) code.data h with
    hin | ⟨r, s, ha, hne, hp⟩
  · exact hin
  · exfalso
    have hlen10 : ("api_error:".data).length = 10 := by decide
    have hlensum : r.length + s.length = 10 := by
      have := congrArg List.length ha
      rw [hlen10, List.length_append] at this
      omega
    have hsne : 0 < s.length := List.length_pos.mpr hne
    have hrlt : r.length < 10 := by omega
    have hs : s = ("api_error:".data).drop r.length := by
      rw [ha, List.drop_left]
    have habs : s.isPrefixOf needle.data = true :=
      prefixOf_absorb_left needle.data s code.data hp (by omega)
    rw [hs, hpre r.length hrlt] at habs
    exact Bool.false_ne_true habs

/-- Fold of a tag-and-score accumulator over any rule list equals appending
the tags of the matching rules and adding the per-match weight. -/
theorem foldTagScore (p : String → Bool) (tagOf : String → String) (w : Nat) :
    ∀ (l : List String) (init : List String × Nat),
      l.foldl (fun acc t => if p t then (acc.1 ++ [tagOf t], acc.2 + w) else acc) init =
      (init.1 ++ (l.filter p).map tagOf, init.2 + w * (l.filter p).length) := by
  intro l
  induction l with
  | nil => intro init; simp
  | cons t rest ih =>
    intro init
    by_cases hp : p t
    · rw [List.foldl_cons, if_pos hp, ih, List.filter_cons_of_pos hp]
      refine Prod.ext ?_ ?_
      · simp
      · simp only [List.length_cons]
        ring
    · rw [List.foldl_cons, if_neg hp, ih, List.filter_cons_of_neg hp]

/-- A truthy optional string is a present, non-empty string. -/
theorem pyTruthy_iff (o : Option String) :
    pyTruthy o = true ↔ ∃ t, o = some t ∧ t ≠ "" := by
  cases o with
  | none => simp [pyTruthy]
  | some t => simp [pyTruthy]

/-- With a falsy timestamp, the off-hours rule is off. -/
theorem offHoursRule_of_falsy (ed : ExtractedDetails)
    (h : pyTruthy ed.event_time = false) : offHoursRule ed = false := by
  unfold offHoursRule
  cases he : ed.event_time with
  | none => rfl
  | some t =>
    rw [he] at h
    simp only [pyTruthy] at h
    simp at h
    simp [h]

/-- With a truthy timestamp that parses, the off-hours rule is the parsed
hour being outside 6..22. -/
theorem offHoursRule_of_parsed (ed : ExtractedDetails) (t : String) (hr : Nat)
    (he : ed.event_time = some t) (hne : t ≠ "") (hiso : isoHour t = .ok hr) :
    offHoursRule ed = (hr < 6 || 22 < hr) := by
  unfold offHoursRule
  rw [he]
  simp [hne, hiso]

/-- Inversion of a successful pattern analysis: the user agent was present and
the output fields are the rule-by-rule tags and score sums. -/
theorem patternAnalysis_ok (ed : ExtractedDetails) (pa : PatternAnalysis)
    (h : patternAnalysis ed = .ok pa) :
    ∃ ua, ed.user_agent = some ua ∧
      pa.patterns_found =
        (if nameHitB ed then ["suspicious_api_call:" ++ ed.event_name.getD ""] else []) ++
        (uaMatches ua).map (fun t => "suspicious_user_agent:" ++ t) ++
        (if pyTruthy ed.error_code then ["api_error:" ++ ed.error_code.getD ""] else []) ++
        (if offHoursRule ed then ["off_hours_activity"] else []) ∧
      pa.risk_score =
        (if nameHitB ed then 2 else 0) + 5 * (uaMatches ua).length +
        (if pyTruthy ed.error_code then 1 else 0) +
        (if offHoursRule ed then 1 else 0) ∧
      pa.confidence = min (pa.risk_score * 10) 100 := by
  unfold patternAnalysis at h
  cases hua : ed.user_agent with
  | none => rw [hua] at h; simp at h
  | some ua =>
    rw [hua] at h
    simp only [] at h
    refine ⟨ua, rfl, ?_⟩
    rw [foldTagScore] at h
    by_cases ht : pyTruthy ed.event_time
    · rcases (pyTruthy_iff ed.event_time).mp ht with ⟨t, he, hne⟩
      cases hiso : isoHour (ed.event_time.getD "") with
      | error e => rw [if_pos ht, hiso] at h; simp [Except.map] at h
      | ok hr =>
        rw [if_pos ht, hiso] at h
        simp only [Except.map, Except.ok.injEq] at h
        have hoff : offHoursRule ed = (hr < 6 || 22 < hr) := by
          refine offHoursRule_of_parsed ed t hr he hne ?_
          rw [he] at hiso
          simpa using hiso
        rw [← h]
        by_cases hn : nameHitB ed <;>
          by_cases hec : pyTruthy ed.error_code <;>
            rcases hb : (hr < 6 || 22 < hr) with _ | _ <;>
              simp [hn, hec, hb, hoff, uaMatches]
    · rw [if_neg ht] at h
      simp only [Except.map, Except.ok.injEq] at h
      have hoff : offHoursRule ed = false := offHoursRule_of_falsy ed (by simpa using ht)
      rw [← h]
      by_cases hn : nameHitB ed <;>
        by_cases hec : pyTruthy ed.error_code <;>
          simp [hn, hec, hoff, uaMatches]

/-- The if-chain of _assess_threat_level computes exactly the §4.4 threshold
table read high-to-low with first match winning. -/
theorem assess_level_eq_table (pa : PatternAnalysis) (ai : AiAnalysis) :
    (assessThreatLevel pa ai).threat_level =
      specTableLevel (((pa.risk_score : ℚ) + ai.risk_score.getD 0) / 2) := by
  unfold assessThreatLevel specTableLevel specThresholdRows
  set q : ℚ := ((pa.risk_score : ℚ) + ai.risk_score.getD 0) / 2 with hq
  by_cases h8 : q ≥ 8 <;> by_cases h6 : q ≥ 6 <;> by_cases h4 : q ≥ 4 <;>
    by_cases h2 : q ≥ 2 <;> simp [List.find?, h8, h6, h4, h2]

/-- Every signature in the tool catalog is already lowercase. -/
theorem userAgentsCatalog_lower : ∀ t ∈ userAgentsCatalog, pyLower t = t := by decide

/-- With a present user agent, the claim-side both-sides-lowercased matcher
agrees with the matcher of the source. -/
theorem distinctToolMatches_eq (ed : ExtractedDetails) (ua : String)
    (hua : ed.user_agent = some ua) : distinctToolMatches ed = uaMatches ua := by
  unfold distinctToolMatches uaMatches
  rw [hua]
  exact List.filter_congr (fun t ht => by rw [userAgentsCatalog_lower t ht, Option.getD_some])

/-- The category loop adds nothing when no tag contains brute_force or
reconnaissance. -/
theorem addPatternCategories_of_no_match :
    ∀ (l : List String) (base : Finset String),
      (∀ p ∈ l, pyIn "brute_force" p = false ∧ pyIn "reconnaissance" p = false) →
      addPatternCategories l base = base := by
  intro l
  induction l with
  | nil => intro base _; rfl
  | cons p rest ih =>
    intro base h
    have hp := h p (by simp)
    unfold addPatternCategories
    rw [List.foldl_cons]
    rw [if_neg (by simp [hp.1]), if_neg (by simp [hp.2])]
    have := ih base (fun x hx => h x (by simp [hx]))
    unfold addPatternCategories at this
    exact this

/-- Inversion of the name rule: a hit is a present name from the catalog. -/
theorem nameHitB_true (ed : ExtractedDetails) (h : nameHitB ed = true) :
    ∃ nm, ed.event_name = some nm ∧ nm ∈ apiCallsCatalog := by
  unfold nameHitB at h
  cases he : ed.event_name with
  | none => rw [he] at h; simp at h
  | some nm =>
    rw [he] at h
    exact ⟨nm, rfl, by simpa using h⟩

/-- No tail of the api_error: header starts brute_force. -/
theorem brute_force_header :
    ∀ n, n < 10 → (("api_error:".data).drop n).isPrefixOf ("brute_force".data) = false := by
  decide

/-- No tail of the api_error: header starts reconnaissance. -/
theorem reconnaissance_header :
    ∀ n, n < 10 → (("api_error:".data).drop n).isPrefixOf ("reconnaissance".data) = false := by
  decide

/-- No suspicious_api_call tag of the catalog contains either category
substring. -/
theorem apiTag_no_needles :
    ∀ nm ∈ apiCallsCatalog,
      pyIn "brute_force" ("suspicious_api_call:" ++ nm) = false ∧
      pyIn "reconnaissance" ("suspicious_api_call:" ++ nm) = false := by
  decide

/-- No suspicious_user_agent tag of the catalog contains either category
substring. -/
theorem uaTag_no_needles :
    ∀ t ∈ userAgentsCatalog,
      pyIn "brute_force" ("suspicious_user_agent:" ++ t) = false ∧
      pyIn "reconnaissance" ("suspicious_user_agent:" ++ t) = false := by
  decide

/-- The off-hours tag contains neither category substring. -/
theorem offTag_no_needles :
    pyIn "brute_force" "off_hours_activity" = false ∧
    pyIn "reconnaissance" "off_hours_activity" = false := by
  decide

/-! Claim theorems. -/

/-- C1: for every pattern analysis and every semantic analysis, the
aggregated assessment has score (patternScore + semanticScore) / 2, level
given by the threshold table evaluated high-to-low with first match winning
(8 CRITICAL, 6 HIGH, 4 MEDIUM, 2 LOW, else INFO), and confidence equal to
the maximum of the two confidences. -/
theorem c1_aggregator_score_level_confidence (pa : PatternAnalysis) (ai : AiAnalysis) :
    (assessThreatLevel pa ai).risk_score =
      ((pa.risk_score : ℚ) + ai.risk_score.getD 0) / 2 ∧
    (assessThreatLevel pa ai).threat_level =
      specTableLevel (((pa.risk_score : ℚ) + ai.risk_score.getD 0) / 2) ∧
    (assessThreatLevel pa ai).confidence =
      max (pa.confidence : Int) (ai.confidence.getD 0) :=
  ⟨rfl, assess_level_eq_table pa ai, rfl⟩

/-- C2: for every event on which pattern analysis succeeds, the risk score is
the sum of the independent rules (+2 name in catalog, +5 per distinct
case-insensitive tool-signature substring of the user agent, +1 non-empty
error code, +1 hour outside 6..22) and the confidence is
min(score * 10, 100). -/
theorem c2_pattern_score_sum_of_rules (ed : ExtractedDetails) (pa : PatternAnalysis)
    (h : patternAnalysis ed = .ok pa) :
    pa.risk_score =
      (if nameHitB ed then 2 else 0) + 5 * (distinctToolMatches ed).length +
      (if pyTruthy ed.error_code then 1 else 0) +
      (if offHoursRule ed then 1 else 0) ∧
    pa.confidence = min (pa.risk_score * 10) 100 := by
  rcases patternAnalysis_ok ed pa h with ⟨ua, hua, _, hscore, hconf⟩
  rw [distinctToolMatches_eq ed ua hua]
  exact ⟨hscore, hconf⟩

/-- Witness for C2 at the scenario event: the hypothesis holds by evaluation
and the rule-sum equation follows from the theorem. -/
theorem c2_pattern_score_witness :
    patternAnalysis scenarioDetails = .ok scenarioPA ∧
    scenarioPA.risk_score =
      (if nameHitB scenarioDetails then 2 else 0) +
      5 * (distinctToolMatches scenarioDetails).length +
      (if pyTruthy scenarioDetails.error_code then 1 else 0) +
      (if offHoursRule scenarioDetails then 1 else 0) :=
  ⟨by rfl, (c2_pattern_score_sum_of_rules scenarioDetails scenarioPA (by rfl)).1⟩

/-- C3 (code bug evidence): the first upsert stores attackCount 1, but the
second upsert for the same key returns the empty dict and leaves the table
unchanged — the stored attackCount stays 1 instead of reaching 2, because
the profile read back from storage carries list-typed set fields and the
update call on them raises. -/
theorem c3_second_upsert_loses_increment :
    upsert1.2.map AttackerProfile.attack_count = some 1 ∧
    (tableGet upsert1.1 "203.0.113.25").map AttackerProfile.attack_count = some 1 ∧
    upsert2.2 = none ∧
    upsert2.1 = upsert1.1 ∧
    (tableGet upsert2.1 "203.0.113.25").map AttackerProfile.attack_count = some 1 :=
  ⟨rfl, rfl, rfl, rfl, rfl⟩

/-- C4: for every classifier failure the adapter returns the zero-value
sentinel (empty categories, score read as 0, confidence 0, rationale the
failure reason) instead of raising, and the aggregator still produces a
valid assessment from the pattern analysis alone; on any event whose
pattern analysis succeeds, the pipeline with a failing classifier succeeds. -/
theorem c4_sentinel_on_classifier_failure (event : CloudEvent) (msg : String)
    (pa : PatternAnalysis)
    (hok : (patternAnalysis (extractEventDetails event)).isOk = true) :
    aiAnalysis (.error msg) = aiFailureResult msg ∧
    (aiFailureResult msg).threat_categories = some [] ∧
    (aiFailureResult msg).risk_score.getD 0 = 0 ∧
    (aiFailureResult msg).confidence.getD 0 = 0 ∧
    (aiFailureResult msg).reasoning = some ("AI analysis failed: " ++ msg) ∧
    (assessThreatLevel pa (aiAnalysis (.error msg))).risk_score =
      (pa.risk_score : ℚ) / 2 ∧
    (assessThreatLevel pa (aiAnalysis (.error msg))).threat_level =
      specTableLevel ((pa.risk_score : ℚ) / 2) ∧
    (analyzeEvent event (.error msg)).isOk = true := by
  refine ⟨rfl, rfl, rfl, rfl, rfl, ?_, ?_, ?_⟩
  · show ((pa.risk_score : ℚ) + (0 : ℚ)) / 2 = (pa.risk_score : ℚ) / 2
    rw [add_zero]
  · rw [assess_level_eq_table pa (aiAnalysis (.error msg))]
    show specTableLevel (((pa.risk_score : ℚ) + (0 : ℚ)) / 2) = _
    rw [add_zero]
  · unfold analyzeEvent
    cases hpa : patternAnalysis (extractEventDetails event) with
    | error e => rw [hpa] at hok; simp [Except.isOk, Except.toBool] at hok
    | ok p => simp [hpa, Except.map, Except.isOk, Except.toBool]

/-- Witness for C4 at the scenario event with a timeout failure message. -/
theorem c4_sentinel_witness :
    (patternAnalysis (extractEventDetails scenarioEvent)).isOk = true ∧
    (analyzeEvent scenarioEvent (.error "Read timeout on invoke_model")).isOk = true :=
  ⟨by rfl,
   (c4_sentinel_on_classifier_failure scenarioEvent "Read timeout on invoke_model"
      scenarioPA (by rfl)).2.2.2.2.2.2.2⟩

/-- C5 counterexample: an event with both anchor fields (name and timestamp)
present but no user agent makes pattern analysis — and hence the whole
analysis pipeline — raise AttributeError, refuting both that absent optional
fields are always defaulted and that only a missing name or timestamp can
fail processing. -/
theorem c5_missing_user_agent_fails :
    (extractEventDetails c5Event).event_name = some "GetUser" ∧
    (extractEventDetails c5Event).event_time = some "2024-01-15T10:30:00Z" ∧
    patternAnalysis (extractEventDetails c5Event) =
      .error "AttributeError: NoneType object has no attribute lower" ∧
    (analyzeEvent c5Event (.error "timeout")).isOk = false :=
  ⟨rfl, rfl, rfl, rfl⟩

/-- C5 amended: processing fails only through the user agent or an
unparseable timestamp — whenever the extracted user agent is present and a
present non-empty timestamp parses, pattern analysis and the pipeline
succeed, for every event, including events with no name and no timestamp
(there is no MalformedEventError in the code). -/
theorem c5_amended_failure_characterization (ev : CloudEvent)
    (hua : (extractEventDetails ev).user_agent ≠ none)
    (htime : ∀ t, (extractEventDetails ev).event_time = some t → t ≠ "" →
      (isoHour t).isOk = true) :
    (patternAnalysis (extractEventDetails ev)).isOk = true ∧
    ∀ callOutcome, (analyzeEvent ev callOutcome).isOk = true := by
  have hpat : (patternAnalysis (extractEventDetails ev)).isOk = true := by
    unfold patternAnalysis
    cases hu : (extractEventDetails ev).user_agent with
    | none => exact absurd hu hua
    | some ua =>
      simp only []
      by_cases ht : pyTruthy (extractEventDetails ev).event_time
      · rcases (pyTruthy_iff _).mp ht with ⟨t, he, hne⟩
        have := htime t he hne
        cases hiso : isoHour t with
        | error e => rw [hiso] at this; simp [Except.isOk, Except.toBool] at this
        | ok hr =>
          rw [if_pos ht, he]
          simp only [Option.getD_some, hiso, Except.map]
          simp [Except.isOk, Except.toBool]
      · rw [if_neg ht]
        simp [Except.map, Except.isOk, Except.toBool]
  refine ⟨hpat, ?_⟩
  intro callOutcome
  unfold analyzeEvent
  cases hpa : patternAnalysis (extractEventDetails ev) with
  | error e => rw [hpa] at hpat; simp [Except.isOk, Except.toBool] at hpat
  | ok p => simp [hpa, Except.map, Except.isOk, Except.toBool]

/-- Witness for C5 amended: an event with only a user agent — no name, no
timestamp, no error, no address — is processed without failure. -/
theorem c5_amended_witness :
    (extractEventDetails c5WitnessEvent).user_agent ≠ none ∧
    (extractEventDetails c5WitnessEvent).event_name = none ∧
    (extractEventDetails c5WitnessEvent).event_time = none ∧
    (patternAnalysis (extractEventDetails c5WitnessEvent)).isOk = true :=
  ⟨by decide, rfl, rfl,
   (c5_amended_failure_characterization c5WitnessEvent (by decide)
      (fun t h _ => Option.noConfusion h)).1⟩

/-- C6 counterexample: deep analysis is escalated already at level HIGH, so
escalation is not equivalent to the level being CRITICAL. -/
theorem c6_high_triggers_deep_analysis :
    deepAnalysisCondition "HIGH" = true ∧ "HIGH" ≠ "CRITICAL" := by decide

/-- C6 amended: the threat detector persists intelligence exactly for
MEDIUM/HIGH/CRITICAL and hands off to incident response exactly for
HIGH/CRITICAL; the intel collector escalates deep analysis exactly for
HIGH and CRITICAL (not CRITICAL alone); incident response blocks the source
address (WAF + security group) for HIGH and CRITICAL and always alerts, so
HIGH and CRITICAL emit identical action sets. -/
theorem c6_amended_router_actions :
    (∀ l, storeIntelCondition l = true ↔ (l = "MEDIUM" ∨ l = "HIGH" ∨ l = "CRITICAL")) ∧
    (∀ l, incidentResponseCondition l = true ↔ (l = "HIGH" ∨ l = "CRITICAL")) ∧
    (∀ l, deepAnalysisCondition l = true ↔ (l = "HIGH" ∨ l = "CRITICAL")) ∧
    lambdaHandlerDispatch "INFO" = ["send_metrics"] ∧
    lambdaHandlerDispatch "LOW" = ["send_metrics"] ∧
    lambdaHandlerDispatch "MEDIUM" = ["store_threat_intelligence", "send_metrics"] ∧
    lambdaHandlerDispatch "HIGH" =
      ["store_threat_intelligence", "trigger_incident_response", "send_metrics"] ∧
    lambdaHandlerDispatch "CRITICAL" = lambdaHandlerDispatch "HIGH" ∧
    executeResponseActions "HIGH" (some "203.0.113.25") =
      ["waf_ip_block", "security_group_deny", "alert_sent"] ∧
    executeResponseActions "CRITICAL" (some "203.0.113.25") =
      executeResponseActions "HIGH" (some "203.0.113.25") ∧
    executeResponseActions "MEDIUM" (some "203.0.113.25") = ["alert_sent"] ∧
    executeResponseActions "HIGH" none = ["alert_sent"] := by
  refine ⟨?_, ?_, ?_, rfl, rfl, rfl, rfl, rfl, rfl, rfl, rfl, rfl⟩
  · intro l; simp [storeIntelCondition]
  · intro l; simp [incidentResponseCondition]
  · intro l; simp [deepAnalysisCondition]

/-- C7 counterexample: the scenario event scores 8, not 6 (GetUser itself is
in the sensitive-API catalog, adding 2 on top of 5 for sqlmap and 1 for the
error), and with the sentinel semantic result the aggregated level on the
first occurrence is MEDIUM, not HIGH or above. -/
theorem c7_pattern_score_not_six :
    patternAnalysis scenarioDetails = .ok scenarioPA ∧
    scenarioPA.risk_score = 8 ∧
    (8 : Nat) ≠ 6 ∧
    (assessThreatLevel scenarioPA (aiFailureResult "timeout")).threat_level = "MEDIUM" ∧
    "MEDIUM" ≠ "HIGH" ∧ "MEDIUM" ≠ "CRITICAL" := by
  refine ⟨rfl, rfl, by decide, ?_, by decide, by decide⟩
  show (if ((8 : ℚ) + 0) / 2 ≥ 8 then "CRITICAL"
        else if ((8 : ℚ) + 0) / 2 ≥ 6 then "HIGH"
        else if ((8 : ℚ) + 0) / 2 ≥ 4 then "MEDIUM"
        else if ((8 : ℚ) + 0) / 2 ≥ 2 then "LOW"
        else "INFO") = "MEDIUM"
  norm_num

/-- C7 amended: the scenario pattern score is 8 = 2 (GetUser in the catalog)
+ 5 (sqlmap) + 1 (error); the threshold table applied to the raw pattern
score yields CRITICAL, which is HIGH or above, while the full aggregation
against the sentinel semantic result averages down to 4 and level MEDIUM. -/
theorem c7_amended_scenario :
    patternAnalysis scenarioDetails = .ok scenarioPA ∧
    scenarioPA.risk_score = 2 + 5 + 1 ∧
    specTableLevel ((scenarioPA.risk_score : ℚ)) = "CRITICAL" ∧
    (assessThreatLevel scenarioPA (aiFailureResult "timeout")).risk_score = 4 ∧
    (assessThreatLevel scenarioPA (aiFailureResult "timeout")).threat_level = "MEDIUM" := by
  refine ⟨rfl, rfl, ?_, ?_, ?_⟩
  · show specTableLevel ((8 : ℚ)) = "CRITICAL"
    unfold specTableLevel specThresholdRows
    norm_num [List.find?]
  · show ((8 : ℚ) + 0) / 2 = 4
    norm_num
  · show (if ((8 : ℚ) + 0) / 2 ≥ 8 then "CRITICAL"
          else if ((8 : ℚ) + 0) / 2 ≥ 6 then "HIGH"
          else if ((8 : ℚ) + 0) / 2 ≥ 4 then "MEDIUM"
          else if ((8 : ℚ) + 0) / 2 ≥ 2 then "LOW"
          else "INFO") = "MEDIUM"
    norm_num

/-- C8 (code bug evidence): merging new tool evidence into an existing
profile never succeeds — the second upsert returns the empty dict and the
stored tools set stays {sqlmap}, which is not a superset of the incoming
{nmap}: the set fields do not grow. -/
theorem c8_merge_on_existing_profile_fails :
    (tableGet upsert1.1 "203.0.113.25").map AttackerProfile.tools_used =
      some (.pylist ["sqlmap"]) ∧
    pyCollUpdate (PyColl.pylist ["sqlmap"]) ["nmap"] =
      .error "AttributeError: list object has no attribute update" ∧
    upsert2.2 = none ∧
    (tableGet upsert2.1 "203.0.113.25").map AttackerProfile.tools_used =
      some (.pylist ["sqlmap"]) ∧
    "nmap" ∉ pyCollToList (PyColl.pylist ["sqlmap"]) :=
  ⟨rfl, rfl, rfl, rfl, by decide⟩

/-- C9 counterexample: the threat-detector intelligence item written for the
scenario event carries a 30-day expiry, not the documented 90 days. -/
theorem c9_detector_ttl_thirty_days :
    (storeThreatIntelligenceItem 1700000000 scenarioEvent c9Assessment
        "2024-01-15T10:30:05+00:00").ttl = 1700000000 + 30 * 24 * 60 * 60 ∧
    1700000000 + 30 * 24 * 60 * 60 ≠ 1700000000 + 90 * 24 * 60 * 60 :=
  ⟨rfl, by decide⟩

/-- C9 amended: records persisted by the intel collector carry a 90-day TTL
from the time of writing, while the threat detector persists its own
intelligence items with a 30-day TTL. -/
theorem c9_amended_retention (now : Nat) (nowIso assessmentTs : String)
    (event : CloudEvent) (ta : ThreatAssessment) (eid sip tl : Option String)
    (rs : Option ℚ) (cats : Option (List String)) :
    (storeThreatIntelligenceItem now event ta assessmentTs).ttl =
      now + 30 * 24 * 60 * 60 ∧
    (storeIntelligenceRecord now nowIso eid sip tl rs cats).ttl =
      now + 90 * 24 * 60 * 60 :=
  ⟨rfl, rfl⟩

/-- C10: whenever the error code contains neither brute_force nor
reconnaissance as a substring, the pattern tags contribute no category at
all (no catalog tag ever contains those substrings, and the api_error tag
can only contain them through the code itself), so the assessment categories
are exactly the semantic classifier categories. -/
theorem c10_categories_from_semantic_unless_error_code
    (ed : ExtractedDetails) (pa : PatternAnalysis) (ai : AiAnalysis)
    (h : patternAnalysis ed = .ok pa)
    (hbf : pyIn "brute_force" (ed.error_code.getD "") = false)
    (hrc : pyIn "reconnaissance" (ed.error_code.getD "") = false) :
    addPatternCategories pa.patterns_found ∅ = ∅ ∧
    (assessThreatLevel pa ai).categories = (ai.threat_categories.getD []).toFinset := by
  rcases patternAnalysis_ok ed pa h with ⟨ua, _, hpat, _, _⟩
  have hall : ∀ p ∈ pa.patterns_found,
      pyIn "brute_force" p = false ∧ pyIn "reconnaissance" p = false := by
    intro p hp
    rw [hpat] at hp
    rcases List.mem_append.mp hp with hp3 | hoff
    · rcases List.mem_append.mp hp3 with hp2 | herr
      · rcases List.mem_append.mp hp2 with hname | hu
        · by_cases hn : nameHitB ed
          · rw [if_pos hn] at hname
            rcases nameHitB_true ed hn with ⟨nm, he, hcat⟩
            rw [he] at hname
            simp only [Option.getD_some, List.mem_singleton] at hname
            rw [hname]
            exact apiTag_no_needles nm hcat
          · rw [if_neg hn] at hname
            simp at hname
        · rcases List.mem_map.mp hu with ⟨t, ht, htag⟩
          have hcat : t ∈ userAgentsCatalog := List.mem_of_mem_filter ht
          rw [← htag]
          exact uaTag_no_needles t hcat
      · by_cases hec : pyTruthy ed.error_code
        · rw [if_pos hec] at herr
          simp only [List.mem_singleton] at herr
          rw [herr]
          constructor
          · cases hx : pyIn "brute_force" ("api_error:" ++ ed.error_code.getD "") with
            | false => rfl
            | true =>
              have := substr_through_api_error "brute_force" (ed.error_code.getD "")
                (by decide) brute_force_header hx
              rw [this] at hbf
              exact absurd hbf (by simp)
          · cases hx : pyIn "reconnaissance" ("api_error:" ++ ed.error_code.getD "") with
            | false => rfl
            | true =>
              have := substr_through_api_error "reconnaissance" (ed.error_code.getD "")
                (by decide) reconnaissance_header hx
              rw [this] at hrc
              exact absurd hrc (by simp)
        · rw [if_neg hec] at herr
          simp at herr
    · by_cases hof : offHoursRule ed
      · rw [if_pos hof] at hoff
        simp only [List.mem_singleton] at hoff
        rw [hoff]
        exact offTag_no_needles
      · rw [if_neg hof] at hoff
        simp at hoff
  refine ⟨addPatternCategories_of_no_match pa.patterns_found ∅ hall, ?_⟩
  show addPatternCategories pa.patterns_found
      (match ai.threat_categories with
       | some cs => cs.toFinset
       | none => ∅) = (ai.threat_categories.getD []).toFinset
  cases ai.threat_categories with
  | some cs => exact addPatternCategories_of_no_match pa.patterns_found _ hall
  | none =>
    rw [addPatternCategories_of_no_match pa.patterns_found _ hall]
    simp

/-- Witness for C10 at the scenario event (error code AccessDenied) with a
semantic result carrying one category: the assessment categories are exactly
that category. -/
theorem c10_witness :
    patternAnalysis scenarioDetails = .ok scenarioPA ∧
    pyIn "brute_force" (scenarioDetails.error_code.getD "") = false ∧
    pyIn "reconnaissance" (scenarioDetails.error_code.getD "") = false ∧
    (assessThreatLevel scenarioPA
      { threat_categories := some ["privilege_escalation"]
        confidence := some 70
        reasoning := some "escalation attempt"
        risk_score := some 5 }).categories =
      (["privilege_escalation"] : List String).toFinset :=
  ⟨by rfl, by decide, by decide,
   (c10_categories_from_semantic_unless_error_code scenarioDetails scenarioPA
      { threat_categories := some ["privilege_escalation"]
        confidence := some 70
        reasoning := some "escalation attempt"
        risk_score := some 5 }
      (by rfl) (by decide) (by decide)).2⟩
